import Mathlib

/-!
Shallow embedding of the core of `tools/fastq-load/fastq-load.py` (a FASTQ
ingestion and normalization engine) together with proofs checking the
natural-language specification against it.

Python strings are modelled as Lean `String`; Python truthiness of a string
is modelled as `≠ ""`; Python `None` for an optional string is modelled via
`Option String`; Python integers are `Int`/`Nat`.  Each definition mirrors one
function (or one branch body) of the source file, named after it.
-/

namespace FastqLoad

/-- Model of Python `str.strip()`: drop leading and trailing whitespace. -/
def pyStrip (s : String) : String :=
  String.mk (((s.data.dropWhile Char.isWhitespace).reverse.dropWhile
    Char.isWhitespace).reverse)

/-- Lexicographic comparison of character lists by code point, as Python
compares strings (a proper head is smaller than any extension of it). -/
def listLtB : List Char → List Char → Bool
  | _, [] => false
  | [], _ :: _ => true
  | a :: as, b :: bs => if a < b then true else if b < a then false else listLtB as bs

/-- Python `<` on strings. -/
def pyStrLt (a b : String) : Bool :=
  listLtB a.data b.data

/-- Model of Python `str.split()` (split on runs of whitespace, discarding
empty tokens), on character lists.  `acc` is the current token, reversed. -/
def splitWsAux : List Char → List Char → List (List Char)
  | [], acc => if acc = [] then [] else [acc.reverse]
  | c :: cs, acc =>
    if c.isWhitespace then
      if acc = [] then splitWsAux cs []
      else acc.reverse :: splitWsAux cs []
    else splitWsAux cs (c :: acc)

/-- Python `str.split()` on strings. -/
def pySplit (s : String) : List String :=
  (splitWsAux s.data []).map String.mk

/-- Python `str * n` (string repetition; a negative count yields `""`, matching
truncated subtraction on `Nat`). -/
def pyRepeat (s : String) (n : Nat) : String :=
  String.join (List.replicate n s)

/-- Numeric value of a digit list, as Python `int` would read it. -/
def digitsToNat (cs : List Char) : Nat :=
  cs.foldl (fun n c => n * 10 + (c.toNat - '0'.toNat)) 0

/-- Python `int(s)` for strings accepted by `Qual.isInt` (optional sign, then
digits). -/
def strToInt (s : String) : Int :=
  match s.data with
  | '-' :: cs => - (digitsToNat cs : Int)
  | '+' :: cs => (digitsToNat cs : Int)
  | cs => (digitsToNat cs : Int)

/-- Whether `pat` occurs at the head of `s`. -/
def startsWithList : List Char → List Char → Bool
  | [], _ => true
  | _ :: _, [] => false
  | p :: ps, c :: cs => p = c && startsWithList ps cs

/-- Lowest index at which `pat` occurs in `s` (Python `str.find` / a successful
`re.search` of an escaped literal), `none` when absent. -/
def strFind (pat s : List Char) : Option Nat :=
  (List.range (s.length + 1)).find? (fun i => startsWithList pat (s.drop i))

/-- Highest index at which `pat` occurs in `s` (Python `str.rfind`), `none`
when absent (Python `-1`). -/
def strRFind (pat s : List Char) : Option Nat :=
  ((List.range (s.length + 1)).reverse).find? (fun i => startsWithList pat (s.drop i))

/-- Python `re.split('/|\\\\', s)`: split at every `/` or `\` character,
keeping empty chunks.  The result is always non-empty. -/
def splitSlash : List Char → List (List Char)
  | [] => [[]]
  | c :: cs =>
    if c = '/' ∨ c = '\\' then [] :: splitSlash cs
    else
      match splitSlash cs with
      | t :: ts => (c :: t) :: ts
      | [] => [[c]]

/-- Python `re.search("/[1234]$", s)` as a Boolean. -/
def endsWithSlashNum (s : String) : Bool :=
  match s.data.reverse with
  | d :: '/' :: _ => d = '1' ∨ d = '2' ∨ d = '3' ∨ d = '4'
  | _ => false

/-! ## Defline pairing (`Defline.isPairedDeflines`) -/

/-- The four possible results of `Defline.isPairedDeflines`: Python
`False`, `True`, `1` and `2`. -/
inductive PairAnswer
  | no
  | yes
  | first
  | second
deriving DecidableEq

/-- The fields of a parsed `Defline` object inspected by
`Defline.isPairedDeflines`.  Empty string models a Python falsy value. -/
structure DeflineRec where
  name : String
  readNum : String
  poreRead : String
  tagType : String
  deflineString : String

/-- `Defline.isPairedDeflines(defline1, defline2, sameReadNum)`, lines
420-508 of the source: decides whether the two deflines are the same read
(seq/qual pairing), mates of one spot (returning which side is read 1), or
unrelated. -/
def isPairedDeflines (defline1 defline2 : DeflineRec) (sameReadNum : Bool) : PairAnswer :=
  if sameReadNum = true ∧ defline1.name ≠ "" ∧ defline2.name ≠ "" ∧
      defline1.name = defline2.name ∧ defline1.readNum = defline2.readNum then
    if defline1.tagType ≠ "" ∧ defline2.tagType ≠ "" ∧
        ¬ defline1.tagType = defline2.tagType then .no
    else .yes
  else if sameReadNum = false ∧ defline1.name ≠ "" ∧ defline2.name ≠ "" ∧
      defline1.name = defline2.name then
    if defline1.readNum ≠ "" ∧ defline2.readNum ≠ "" then
      if pyStrLt defline1.readNum defline2.readNum then .first else .second
    else if defline1.poreRead ≠ "" ∧ defline1.poreRead = "template" then .first
    else if defline2.poreRead ≠ "" ∧ defline2.poreRead = "template" then .second
    else if defline1.poreRead ≠ "" ∨ defline2.poreRead ≠ "" then .no
    else if defline1.tagType ≠ "" ∧ defline2.tagType ≠ "" then
      if defline1.tagType = "F3" ∧ defline2.tagType ≠ "F3" then .first
      else if defline2.tagType = "F3" ∧ defline1.tagType ≠ "F3" then .second
      else .first
    else if pyStrLt defline1.deflineString defline2.deflineString then .first
    else if pyStrLt defline2.deflineString defline1.deflineString then .second
    else .first
  else .no

/-! ## Numeric quality parsing (`Qual.parseQual`, numeric branch) -/

/-- `Qual.isInt(qStr)`: a leading `-` or `+` followed by digits, or digits
alone (lines 1760-1764). -/
def isInt (qStr : String) : Bool :=
  match qStr.data with
  | [] => false
  | c :: cs =>
    if c = '-' ∨ c = '+' then cs ≠ [] && cs.all Char.isDigit
    else (c :: cs).all Char.isDigit

/-- Result of the numeric branch of `Qual.parseQual`: either the program was
aborted by `sys.exit` ("Numerical quality is too high"), or the loop finished
with the accumulated length, minimum and maximum (`length = 0` marks an
invalid, non-integer token). -/
inductive NumQualOutcome
  | aborted
  | done (length : Nat) (minQual maxQual : Int)
deriving DecidableEq

/-- The token loop of the numeric branch of `Qual.parseQual` (lines
1718-1729): for each integer token update `minQual`/`maxQual` and the length,
and exit the program as soon as the running maximum exceeds 100; a
non-integer token resets the length to 0 and breaks. -/
def numQualLoop : List String → Nat → Int → Int → NumQualOutcome
  | [], length, minQual, maxQual => .done length minQual maxQual
  | t :: ts, length, minQual, maxQual =>
    if isInt t then
      let v := strToInt t
      let minQual := if v < minQual then v else minQual
      let maxQual := if v > maxQual then v else maxQual
      let length := length + 1
      if maxQual > 100 then .aborted
      else numQualLoop ts length minQual maxQual
    else .done 0 minQual maxQual

/-- The numeric branch of `Qual.parseQual(qualString)` (entered when the
quality mode is numeric, or whitespace is present and the mode is not yet
ASCII): strip, split on whitespace and run the token loop starting from
`minQual = 1000`, `maxQual = 0` (lines 1700-1733). -/
def parseQualNumeric (qualString : String) : NumQualOutcome :=
  numQualLoop (pySplit (pyStrip qualString)) 0 1000 0

/-! ## Quality-encoding inference (prescan, `processFiles`) -/

/-- The per-spot observation fed to `updateQualRangeAndClipStatus`: the
`minQual`, `maxQual` and numeric flag of the parsed (possibly concatenated)
quality of one spot.  Spots skipped by the early return (missing quality)
are not represented. -/
structure QualObs where
  minQual : Int
  maxQual : Int
  isNumQual : Bool

/-- The accumulated global state of the quality prescan
(`sw.minQual`/`sw.maxQual`/`sw.isNumQual`). -/
structure QualRangeState where
  minQual : Int
  maxQual : Int
  isNumQual : Bool
deriving DecidableEq

/-- Initial prescan state (`FastqSpotWriter.__init__`, lines 2511-2523):
`minQual = 1000`, `maxQual = 0`, ASCII assumed. -/
def initQualRangeState : QualRangeState :=
  ⟨1000, 0, false⟩

/-- `updateQualRangeAndClipStatus` (lines 4391-4419), quality-range part:
fold one spot's observation into the global state; `none` models the fatal
"Possible mixed numerical and non-numerical quality" exit. -/
def updateQualRange (st : QualRangeState) (q : QualObs) : Option QualRangeState :=
  let minQual := if q.minQual < st.minQual then q.minQual else st.minQual
  let maxQual := if q.maxQual > st.maxQual then q.maxQual else st.maxQual
  if st.isNumQual ∧ ¬ (q.isNumQual = true) then none
  else some ⟨minQual, maxQual, q.isNumQual⟩

/-- The prescan loop of `processFastqSpots` with `determineOffsetAndClip`
set (lines 4493-4530): fold observations spot by spot, breaking as soon as
the spot count reaches 100000. -/
def prescanQualRange : QualRangeState → Nat → List QualObs → Option QualRangeState
  | st, _, [] => some st
  | st, count, q :: qs =>
    match updateQualRange st q with
    | none => none
    | some st' =>
      let count' := count + 1
      if count' = 100000 then some st' else prescanQualRange st' count' qs

/-- The quality-encoding decision of `processFiles` when no offset was
provided (lines 4705-4741), returning `(offset, logOdds)`.  `sw.logOdds`
starts `False` in the default configuration modelled here. -/
def chooseQualityEncoding (isNumQual isColorSpace : Bool) (minQual maxQual : Int) :
    Int × Bool :=
  if isNumQual then
    let minQual := if isColorSpace ∧ minQual = -1 then 0 else minQual
    (0, decide (minQual < 0))
  else if 25 < minQual ∧ 45 < maxQual then
    (64, decide (minQual + 33 - 64 < 0))
  else
    (33, false)

/-! ## Spot assembly (`FastqSpotWriter`) -/

/-- The QUALITY column value set by `setDstQual` (lines 3406-3411): a numeric
value array (via `getNumQualArray`) or the ASCII bytes of the string. -/
inductive QualData
  | num (vals : List Int)
  | asc (s : String)
deriving DecidableEq

/-- `FastqSpotWriter.getNumQualArray` (lines 3417-3431): whitespace-split the
quality string and convert each token with `int`. -/
def getNumQualArray (qualString : String) : List Int :=
  (pySplit qualString).map strToInt

/-- `FastqSpotWriter.setDstQual` (lines 3406-3411). -/
def setDstQual (isNumQual : Bool) (qualString : String) : QualData :=
  if isNumQual then .num (getNumQualArray qualString) else .asc qualString

/-- The columns written by `FastqSpotWriter.processPairFastqSpot`. -/
structure PairSpotCols where
  read : String
  csKey : Option String
  readStart : List Nat
  readLength : List Nat
  readFilter : List Nat
  quality : QualData
deriving DecidableEq

/-- `FastqSpotWriter.processPairFastqSpot(fastq1, fastq2)` (lines 2945-2965):
concatenate the two reads, set READ_START/READ_LENGTH from the first read's
length, OR the two filter flags, and - in numeric quality mode with both
qualities non-empty - append a space to the first quality before
concatenating, "so subsequent split on white space works". -/
def processPairFastqSpot (isNumQual isColorSpace : Bool)
    (seq1 qual1 csKey1 : String) (filterRead1 : Bool)
    (seq2 qual2 csKey2 : String) (filterRead2 : Bool) : PairSpotCols :=
  let read := seq1 ++ seq2
  let csKey := if isColorSpace then some (csKey1 ++ csKey2) else none
  let readStart := [0, seq1.length]
  let readLength := [seq1.length, seq2.length]
  let readFilter := if filterRead1 ∨ filterRead2 then [1, 1] else [0, 0]
  let qual1 := if isNumQual ∧ qual1 ≠ "" ∧ qual2 ≠ "" then qual1 ++ " " else qual1
  ⟨read, csKey, readStart, readLength, readFilter, setDstQual isNumQual (qual1 ++ qual2)⟩

/-- The READ_TYPE column stored by `FastqSpotWriter.setUnchangingSpotValues`
for paired files (lines 2814-2820; `1` = Biological, `0` = Technical).  The
source is two consecutive `if` statements - the second one carrying the
`else` - so the value stored by the first is overwritten whenever
`read2IsTechnical` is false. -/
def pairedFilesReadTypes (read1IsTechnical read2IsTechnical : Bool)
    (prev : List Nat) : List Nat :=
  let _dead := if read1IsTechnical then [0, 1] else prev
  if read2IsTechnical then [1, 0] else [1, 1]

/-! ## Sequence/quality length reconciliation (`checkFastqLengths`) -/

/-- The outcome of `checkFastqLengths` on one record: the (possibly
repaired) quality, the updated quality length, the captured quality line
pushed back as the next defline (if any), and the returned Boolean. -/
structure LengthFixResult where
  qual : String
  lengthQual : Nat
  savedDeflineString : Option String
  changed : Bool
deriving DecidableEq

/-- `checkFastqLengths(fastq)` (lines 4436-4481).  `length` is the sequence
length, `lengthQual` the parsed quality length, `qualParsesAsDefline` the
test of lines 4447-4448 (first two bytes match the defline and the quality
line reparses as a valid defline).  In the missing-quality numeric case the
source assigns `"30"` and then immediately overwrites it with
`" 30" * (length - 1)`; the net effect of both statements is embedded. -/
def checkFastqLengths (isNumQual : Bool) (eof : Bool) (length lengthQual : Nat)
    (qual : String) (qualParsesAsDefline : Bool) : LengthFixResult :=
  if eof then ⟨qual, lengthQual, none, false⟩
  else if length ≠ lengthQual then
    if qualParsesAsDefline then
      let newQual := if isNumQual then pyRepeat " 30" (length - 1)
        else pyRepeat "?" length
      ⟨newQual, length, some qual, true⟩
    else if lengthQual < length then
      let delta := length - lengthQual
      let newQual := if isNumQual then qual ++ pyRepeat " 30" delta
        else qual ++ pyRepeat "?" delta
      ⟨newQual, length, none, true⟩
    else
      let newQual := if isNumQual then " ".intercalate ((pySplit qual).take length)
        else String.mk (qual.data.take length)
      ⟨newQual, length, none, true⟩
  else ⟨qual, lengthQual, none, false⟩

/-! ## Resynchronization (`FastqReader.findValidDefline`) -/

/-- Validity of `Defline.parseDeflineString(s)` for a stripped line `s`:
`reset()` sets `isValid = True` (line 517) and the empty-string branch
(lines 558-559) leaves it there, so the empty string is "valid"; for a
non-empty string validity is decided by the pattern cascade, abstracted
here as the parameter `parse`. -/
def parseDeflineValid (parse : String → Bool) (s : String) : Bool :=
  if s = "" then true else parse s

/-- Result of `FastqReader.findValidDefline`: the stripped line accepted as
the next defline, or the fatal "Unable to parse defline in 1000 lines or
before eof" exit. -/
inductive ResyncResult
  | found (defline : String)
  | fatal
deriving DecidableEq

/-- `FastqReader.findValidDefline` (lines 2057-2075) over the remaining raw
lines of the stream (`readline` yields `""` once the list is exhausted):
repeatedly read a line, strip it and reparse it as a defline; accept the
first valid one, and exit fatally when an invalid line is the 1000th
consumed or the raw line was empty. -/
def findValidDefline (parse : String → Bool) : Nat → List String → ResyncResult
  | _, [] =>
    if parseDeflineValid parse "" then .found "" else .fatal
  | count, line :: rest =>
    let count' := count + 1
    let s := pyStrip line
    if parseDeflineValid parse s then .found s
    else if count' = 1000 ∨ line = "" then .fatal
    else findValidDefline parse count' rest

/-! ## Defline classifier branch bodies (`Defline.parseDeflineString`)

Each function below embeds the body of one branch of the pattern cascade,
taking the captured regex groups as inputs (strings exactly as Python's
`m.groups()` yields them). -/

/-- Spot-group post-processing of the new-Illumina branch (lines 691-725)
for a first-time (unlatched) parse: a literal `"0"` becomes empty, a spot
group that strictly contains the defline name is trimmed at that occurrence
minus one separator character (Python `spotGroup[0:start-1]`), and a
trailing `/readnum` is removed. -/
def illuminaNewSpotGroup (name rawSpotGroup : String) : String :=
  let spotGroup := if rawSpotGroup = "0" then "" else rawSpotGroup
  if spotGroup.length > name.length ∧ (strFind name.data spotGroup.data).isSome then
    match strFind name.data spotGroup.data with
    | some start =>
      if start = 0 then String.mk (spotGroup.data.take (spotGroup.length - 1))
      else String.mk (spotGroup.data.take (start - 1))
    | none => spotGroup
  else if endsWithSlashNum spotGroup then
    String.mk (spotGroup.data.take (spotGroup.length - 2))
  else spotGroup

/-- Spot-group post-processing of the old-Illumina branch (lines 848-855):
drop the leading `#` when the captured group is non-empty, then normalize a
literal `"0"` to empty. -/
def illuminaOldSpotGroup (rawSpotGroup : String) : String :=
  let spotGroup := if rawSpotGroup ≠ "" then String.mk (rawSpotGroup.data.drop 1)
    else rawSpotGroup
  if spotGroup = "0" then "" else spotGroup

/-- Spot-group and read-number assignment of the `ILLUMINA_OLD_BC_RN`
branch (lines 1222-1233): with a `#` separator the group is the spot group
(and the read number survives only behind `/` or `\`); otherwise the group
is really the read number and the spot group becomes `None`; finally a spot
group equal to `"0"` becomes empty. -/
def illuminaOldBcRnSpotGroup (sep1 rawSpotGroup sep2 rawReadNum : String) :
    Option String × String :=
  let pair : Option String × String :=
    if sep1 = "#" then
      (some rawSpotGroup, if sep2 = "/" ∨ sep2 = "\\" then rawReadNum else "")
    else
      (none, rawSpotGroup)
  (if pair.1 = some "0" then some "" else pair.1, pair.2)

/-- Fields produced by a defline-classifier branch that are relevant to
spot groups. -/
structure BranchFields where
  name : String
  spotGroup : String
deriving DecidableEq

/-- The `QIIME_GENERIC` branch body (lines 1249-1272): the two groups of the
`qiimeBc` pattern become the name and the spot group verbatim. -/
def qiimeGenericParse (name newBc : String) : BranchFields :=
  ⟨name, newBc⟩

/-- The `READID_BARCODE` branch body (lines 1391-1420): the `barcode=` group
becomes the spot group verbatim; the prefix (with its `::` tail removed) is
prepended to the name unless it occurs in the qiime name. -/
def readIdBarcodeParse (qiimeName pfx readId barcode : String) : BranchFields :=
  let name :=
    if pfx ≠ "" ∧
        ¬ (strFind (pfx.data.take (pfx.length - 2)) qiimeName.data).isSome then
      pfx ++ readId
    else readId
  ⟨name, barcode⟩

/-- The result of the `poreFile` processing of the Nanopore branch. -/
structure PoreFileOutcome where
  filterRead : Nat
  poreFile : String
  spotGroup : String
deriving DecidableEq

/-- The `poreFile` processing of the Nanopore branch (lines 1329-1352),
entered when the captured `poreFile` group - which always begins with the
`:` separator of the pattern - is non-empty: split it on `/` or `\`; with
more than one chunk, set the filter flag from a `fail`/`pass` first chunk
and keep only the final path component; then derive the spot group from the
portion of the `.fast5` filename before the last `_ch<channel>_` marker. -/
def nanoporeProcessPoreFile (filterRead : Nat) (spotGroup channel poreFile : String) :
    PoreFileOutcome :=
  if poreFile ≠ "" then
    let poreFileChunks := splitSlash poreFile.data
    let fr :=
      if poreFileChunks.length > 1 then
        if poreFileChunks.headD [] = "fail".data then 1
        else if poreFileChunks.headD [] = "pass".data then 0
        else filterRead
      else filterRead
    let pf :=
      if poreFileChunks.length > 1 then poreFileChunks.getLastD []
      else poreFile.data
    let pat := "_ch" ++ channel ++ "_"
    match strRFind pat.data pf with
    | some chLoc => ⟨fr, String.mk pf, String.mk (pf.take chLoc)⟩
    | none => ⟨fr, String.mk pf, spotGroup⟩
  else ⟨filterRead, poreFile, spotGroup⟩

/-- The pore-read normalization of the Nanopore branch (lines 1354-1375):
an empty captured suffix falls back to the `.2D.`/`.template.`/`.complement.`
filename markers (aborting - `none` - when the filename is empty or carries
no marker); `_twodirections` and `-2D` normalize to `2D`; `_template` and
`-1D` normalize to `template`; anything else - including the pattern
alternatives `_2d`, `_complement` and `-complement` - becomes `complement`. -/
def normalizePoreRead (poreRead filename : String) : Option String :=
  if poreRead = "" then
    if filename ≠ "" then
      if (strFind ".2D.".data filename.data).isSome then some "2D"
      else if (strFind ".template.".data filename.data).isSome then some "template"
      else if (strFind ".complement.".data filename.data).isSome then some "complement"
      else none
    else none
  else if poreRead = "_twodirections" ∨ poreRead = "-2D" then some "2D"
  else if poreRead = "_template" ∨ poreRead = "-1D" then some "template"
  else some "complement"

/-! ## Helper lemmas -/

lemma splitWsAux_append_ws {w : Char} (hw : w.isWhitespace = true) :
    ∀ (xs acc ys : List Char),
      splitWsAux (xs ++ w :: ys) acc = splitWsAux xs acc ++ splitWsAux ys [] := by
  intro xs
  induction xs with
  | nil =>
    intro acc ys
    by_cases hacc : acc = [] <;>
      simp [splitWsAux, hw, hacc]
  | cons c cs ih =>
    intro acc ys
    by_cases hc : c.isWhitespace = true
    · by_cases hacc : acc = [] <;>
        simp [splitWsAux, hc, hacc, ih]
    · simp [splitWsAux, hc, ih]

lemma pySplit_append_space (a b : String) :
    pySplit ((a ++ " ") ++ b) = pySplit a ++ pySplit b := by
  have hdata : ((a ++ " ") ++ b).data = a.data ++ ' ' :: b.data := by
    simp [String.data_append]
  have hsplit := @splitWsAux_append_ws ' ' (by decide) a.data [] b.data
  simp [pySplit, hdata, hsplit, List.map_append]

lemma listLtB_asymm : ∀ as bs : List Char, listLtB as bs = true → listLtB bs as = false := by
  intro as
  induction as with
  | nil =>
    intro bs h
    cases bs with
    | nil => simp [listLtB] at h
    | cons b bs => simp [listLtB]
  | cons a as ih =>
    intro bs h
    cases bs with
    | nil => simp [listLtB] at h
    | cons b bs =>
      by_cases hab : a < b
      · have hba : ¬ b < a := lt_asymm hab
        simp [listLtB, hba, hab]
      · by_cases hba : b < a
        · simp [listLtB, hab, hba] at h
        · simp [listLtB, hab, hba] at h ⊢
          exact ih bs h

lemma listLtB_trichotomy : ∀ as bs : List Char,
    listLtB as bs = true ∨ as = bs ∨ listLtB bs as = true := by
  intro as
  induction as with
  | nil =>
    intro bs
    cases bs with
    | nil => simp
    | cons b bs => simp [listLtB]
  | cons a as ih =>
    intro bs
    cases bs with
    | nil => simp [listLtB]
    | cons b bs =>
      rcases lt_trichotomy a b with hab | hab | hab
      · left
        simp [listLtB, hab]
      · subst hab
        rcases ih bs with h | h | h
        · left
          simp [listLtB, h]
        · right; left
          simp [h]
        · right; right
          simp [listLtB, h]
      · right; right
        simp [listLtB, hab, lt_asymm hab]

lemma string_eq_of_data_eq {a b : String} (h : a.data = b.data) : a = b := by
  cases a
  cases b
  simp_all

lemma pyStrLt_asymm {a b : String} (h : pyStrLt a b = true) : pyStrLt b a = false :=
  listLtB_asymm a.data b.data h

lemma pyStrLt_trichotomy (a b : String) :
    pyStrLt a b = true ∨ a = b ∨ pyStrLt b a = true := by
  rcases listLtB_trichotomy a.data b.data with h | h | h
  · exact Or.inl h
  · exact Or.inr (Or.inl (string_eq_of_data_eq h))
  · exact Or.inr (Or.inr h)

lemma numQualLoop_abort_iff : ∀ (ts : List String) (len : Nat) (mn mx : Int),
    (∀ t ∈ ts, isInt t = true) → mx ≤ 100 →
    (numQualLoop ts len mn mx = .aborted ↔ ∃ t ∈ ts, 100 < strToInt t) := by
  intro ts
  induction ts with
  | nil =>
    intro len mn mx _ _
    simp [numQualLoop]
  | cons t ts ih =>
    intro len mn mx hint hmx
    have ht : isInt t = true := hint t (List.mem_cons_self t ts)
    have hunfold : numQualLoop (t :: ts) len mn mx =
        (if (if strToInt t > mx then strToInt t else mx) > 100 then .aborted
         else numQualLoop ts (len + 1) (if strToInt t < mn then strToInt t else mn)
           (if strToInt t > mx then strToInt t else mx)) := by
      simp only [numQualLoop, ht, if_true]
    by_cases hv : 100 < strToInt t
    · have hgt : mx < strToInt t := lt_of_le_of_lt hmx hv
      have hcond : (if strToInt t > mx then strToInt t else mx) > 100 := by
        simp [hgt, hv]
      rw [hunfold, if_pos hcond]
      simp only [List.mem_cons]
      constructor
      · intro _
        exact ⟨t, Or.inl rfl, hv⟩
      · intro _
        trivial
    · have hle : strToInt t ≤ 100 := le_of_not_lt hv
      have hmx' : (if strToInt t > mx then strToInt t else mx) ≤ 100 := by
        by_cases hgt : strToInt t > mx <;> simp [hgt, hle, hmx]
      have hcond : ¬ ((if strToInt t > mx then strToInt t else mx) > 100) :=
        not_lt.mpr hmx'
      rw [hunfold, if_neg hcond,
        ih (len + 1) _ _ (fun u hu => hint u (List.mem_cons_of_mem t hu)) hmx']
      simp [List.exists_mem_cons_iff, hv]

lemma prescanQualRange_take :
    ∀ (obs : List QualObs) (st : QualRangeState) (c : Nat), c < 100000 →
      prescanQualRange st c obs = prescanQualRange st c (obs.take (100000 - c)) := by
  intro obs
  induction obs with
  | nil =>
    intro st c _
    simp
  | cons q qs ih =>
    intro st c hc
    obtain ⟨k, hk⟩ : ∃ k, 100000 - c = k + 1 := ⟨100000 - c - 1, by omega⟩
    rw [hk, List.take_succ_cons]
    simp only [prescanQualRange]
    cases updateQualRange st q with
    | none => rfl
    | some st' =>
      by_cases hend : c + 1 = 100000
      · simp [hend]
      · have hc' : c + 1 < 100000 := by omega
        have hk' : 100000 - (c + 1) = k := by omega
        simp only [hend, if_neg hend]
        rw [ih st' (c + 1) hc', hk']

/-! ## Claim theorems -/

/-- **C1.** For every two-read spot emitted via
`FastqSpotWriter.processPairFastqSpot`, the written columns satisfy
READ_START = [0, |seq1|], READ_LENGTH = [|seq1|, |seq2|] and READ =
seq1 ++ seq2; and in numeric quality mode with both per-read quality strings
non-empty, exactly one space is inserted between them, so the emitted
quality value count equals the sum of the two read lengths while the
concatenated quality string length is the two string lengths plus one. -/
theorem processPairFastqSpot_pair_columns (isColorSpace : Bool)
    (seq1 qual1 csKey1 seq2 qual2 csKey2 : String) (filterRead1 filterRead2 : Bool)
    (hq1 : qual1 ≠ "") (hq2 : qual2 ≠ "")
    (hn1 : (pySplit qual1).length = seq1.length)
    (hn2 : (pySplit qual2).length = seq2.length) :
    (∀ isNumQual : Bool,
      (processPairFastqSpot isNumQual isColorSpace seq1 qual1 csKey1 filterRead1
          seq2 qual2 csKey2 filterRead2).readStart = [0, seq1.length] ∧
      (processPairFastqSpot isNumQual isColorSpace seq1 qual1 csKey1 filterRead1
          seq2 qual2 csKey2 filterRead2).readLength = [seq1.length, seq2.length] ∧
      (processPairFastqSpot isNumQual isColorSpace seq1 qual1 csKey1 filterRead1
          seq2 qual2 csKey2 filterRead2).read = seq1 ++ seq2) ∧
    (processPairFastqSpot true isColorSpace seq1 qual1 csKey1 filterRead1
        seq2 qual2 csKey2 filterRead2).quality =
      QualData.num (getNumQualArray ((qual1 ++ " ") ++ qual2)) ∧
    (getNumQualArray ((qual1 ++ " ") ++ qual2)).length = seq1.length + seq2.length ∧
    ((qual1 ++ " ") ++ qual2).length = qual1.length + qual2.length + 1 := by
  refine ⟨fun isNumQual => ⟨rfl, rfl, rfl⟩, ?_, ?_, ?_⟩
  · simp [processPairFastqSpot, setDstQual, hq1, hq2]
  · simp [getNumQualArray, pySplit_append_space, hn1, hn2]
  · have hone : (" " : String).length = 1 := rfl
    simp [String.length_append, hone]
    omega

/-- **C1** witness: the pair spot for seq `AC`/`GTT` with numeric qualities
`30 31` and `32 33 34` emits 5 quality values. -/
theorem processPairFastqSpot_pair_columns_witness :
    ("30 31" : String) ≠ "" ∧ ("32 33 34" : String) ≠ "" ∧
    (pySplit "30 31").length = ("AC" : String).length ∧
    (pySplit "32 33 34").length = ("GTT" : String).length ∧
    (processPairFastqSpot true false "AC" "30 31" "" false "GTT" "32 33 34" "" true).quality =
      QualData.num (getNumQualArray (("30 31" ++ " ") ++ "32 33 34")) ∧
    (getNumQualArray (("30 31" ++ " ") ++ "32 33 34")).length =
      ("AC" : String).length + ("GTT" : String).length :=
  ⟨by decide, by decide, by decide, by decide,
   (processPairFastqSpot_pair_columns false "AC" "30 31" "" "GTT" "32 33 34" "" false true
      (by decide) (by decide) (by decide) (by decide)).2.1,
   (processPairFastqSpot_pair_columns false "AC" "30 31" "" "GTT" "32 33 34" "" false true
      (by decide) (by decide) (by decide) (by decide)).2.2.1⟩

/-- **C3.** The quality prescan visits at most 100000 spots and, when no
offset was provided, the encoding is chosen exactly as: numeric gives offset
0 with logOdds true iff the minimum (after clamping a color-space minimum of
-1 to 0) is negative; ASCII with min > 25 and max > 45 gives offset 64 with
logOdds true iff (min + 33 - 64) < 0; every other ASCII observation gives
offset 33 with logOdds false. -/
theorem qualityEncodingDecision (isColorSpace : Bool) (obs : List QualObs)
    (st : QualRangeState)
    (h : prescanQualRange initQualRangeState 0 obs = some st) :
    prescanQualRange initQualRangeState 0 (obs.take 100000) = some st ∧
    (st.isNumQual = true →
      chooseQualityEncoding st.isNumQual isColorSpace st.minQual st.maxQual =
        (0, decide ((if isColorSpace ∧ st.minQual = -1 then 0 else st.minQual) < 0))) ∧
    (st.isNumQual = false → 25 < st.minQual → 45 < st.maxQual →
      chooseQualityEncoding st.isNumQual isColorSpace st.minQual st.maxQual =
        (64, decide (st.minQual + 33 - 64 < 0))) ∧
    (st.isNumQual = false → ¬ (25 < st.minQual ∧ 45 < st.maxQual) →
      chooseQualityEncoding st.isNumQual isColorSpace st.minQual st.maxQual =
        (33, false)) := by
  refine ⟨?_, ?_, ?_, ?_⟩
  · have ht := prescanQualRange_take obs initQualRangeState 0 (by norm_num)
    rw [Nat.sub_zero] at ht
    rw [← ht]
    exact h
  · intro hnum
    simp [chooseQualityEncoding, hnum]
  · intro hnum hmin hmax
    simp [chooseQualityEncoding, hnum, hmin, hmax]
  · intro hnum hcond
    simp [chooseQualityEncoding, hnum, hcond]

/-- **C3** witness: one ASCII spot observation with range 30..60 chooses
offset 64 with logOdds true. -/
theorem qualityEncodingDecision_witness :
    prescanQualRange initQualRangeState 0 [⟨30, 60, false⟩] =
      some (⟨30, 60, false⟩ : QualRangeState) ∧
    chooseQualityEncoding false false 30 60 = (64, decide ((30 : Int) + 33 - 64 < 0)) :=
  ⟨by decide,
   (qualityEncodingDecision false [⟨30, 60, false⟩] ⟨30, 60, false⟩ (by decide)).2.2.1
     rfl (by decide) (by decide)⟩

/-- **C4** (counterexample). A numeric quality of -150 does not abort the
program: the loop only watches the running maximum, so a value whose
absolute value exceeds 100 but is negative is accepted. -/
theorem parseQualNumeric_abs_claim_false :
    parseQualNumeric "-150" = NumQualOutcome.done 1 (-150) 0 ∧
    ¬ parseQualNumeric "-150" = NumQualOutcome.aborted ∧
    100 < (strToInt "-150").natAbs :=
  ⟨by decide, by decide, by decide⟩

/-- **C4** (amended). For a quality string of whitespace-separated
signed-integer tokens parsed in numeric mode, parsing aborts the program if
and only if some value q satisfies q > 100; negative values never abort. -/
theorem parseQualNumeric_abort_iff (s : String)
    (h : ∀ t ∈ pySplit (pyStrip s), isInt t = true) :
    (parseQualNumeric s = NumQualOutcome.aborted ↔
      ∃ t ∈ pySplit (pyStrip s), 100 < strToInt t) :=
  numQualLoop_abort_iff (pySplit (pyStrip s)) 0 1000 0 h (by norm_num)

/-- **C4** witness: the quality string `150 20` aborts. -/
theorem parseQualNumeric_abort_iff_witness :
    (∀ t ∈ pySplit (pyStrip "150 20"), isInt t = true) ∧
    (parseQualNumeric "150 20" = NumQualOutcome.aborted ↔
      ∃ t ∈ pySplit (pyStrip "150 20"), 100 < strToInt t) :=
  ⟨by decide, parseQualNumeric_abort_iff "150 20" (by decide)⟩

/-- **C5** (code bug). When the quality line parses as a defline in numeric
mode with |seq| = 4, the replacement quality is `" 30" * (length - 1)` - the
`"30"` stored just before is overwritten instead of appended - so only 3
values of 30 are produced where the claim (and the adjacent ASCII branch,
which does emit |seq| characters) requires 4; the captured line is still
pushed back as the next defline. -/
theorem checkFastqLengths_numeric_missing_qual :
    checkFastqLengths true false 4 2 "@spot2" true =
      ⟨" 30 30 30", 4, some "@spot2", true⟩ ∧
    (getNumQualArray " 30 30 30").length = 3 ∧
    ¬ (getNumQualArray " 30 30 30").length = 4 ∧
    checkFastqLengths false false 4 2 "@spot2" true = ⟨"????", 4, some "@spot2", true⟩ ∧
    checkFastqLengths false false 4 2 "ab" false = ⟨"ab??", 4, none, true⟩ ∧
    checkFastqLengths true false 2 4 "30 31 32 33" false = ⟨"30 31", 2, none, true⟩ :=
  ⟨by decide, by decide, by decide, by decide, by decide, by decide⟩

/-- **C6** (counterexample). The QIIME_GENERIC branch stores the parsed
barcode verbatim: a spot group of literal "0" is kept, not normalized to
empty. -/
theorem qiimeGeneric_spotGroup_zero_kept :
    (qiimeGenericParse "10317.000016458_0" "0").spotGroup = "0" ∧
    ¬ (qiimeGenericParse "10317.000016458_0" "0").spotGroup = "" :=
  ⟨by decide, by decide⟩

/-- **C6** (amended). A parsed spot group of literal "0" is normalized to
empty in the new-Illumina, old-Illumina and old-Illumina-BC/RN branches
only; the QIIME, READID_BARCODE and Nanopore branches keep it verbatim. -/
theorem spotGroupZeroNormalization (name : String) (hname : name ≠ "") :
    illuminaNewSpotGroup name "0" = "" ∧
    illuminaOldSpotGroup "#0" = "" ∧
    (illuminaOldBcRnSpotGroup "#" "0" "/" "1").1 = some "" ∧
    (readIdBarcodeParse "PF01_76" "" "P2034:00008:00038" "0").spotGroup = "0" ∧
    (nanoporeProcessPoreFile 0 "" "1" ":pass/0_ch1_file1_strand.fast5").spotGroup = "0" := by
  refine ⟨?_, by decide, by decide, by decide, by decide⟩
  simp [illuminaNewSpotGroup, endsWithSlashNum]

/-- **C6** witness at a concrete new-Illumina name. -/
theorem spotGroupZeroNormalization_witness :
    ("M00181:229:000000000-AAPUA:1:1101:9433:3327" : String) ≠ "" ∧
    illuminaNewSpotGroup "M00181:229:000000000-AAPUA:1:1101:9433:3327" "0" = "" ∧
    illuminaOldSpotGroup "#0" = "" :=
  ⟨by decide,
   (spotGroupZeroNormalization "M00181:229:000000000-AAPUA:1:1101:9433:3327" (by decide)).1,
   (spotGroupZeroNormalization "M00181:229:000000000-AAPUA:1:1101:9433:3327" (by decide)).2.1⟩

/-- **C7** (counterexample). The pore-read suffix `_2d` is normalized to
`complement`, not to `2D`. -/
theorem normalizePoreRead_2d_is_complement :
    normalizePoreRead "_2d" "reads.fastq" = some "complement" ∧
    ¬ normalizePoreRead "_2d" "reads.fastq" = some "2D" :=
  ⟨by decide, by decide⟩

/-- **C7** (amended). Nanopore pore-read normalization: `_twodirections` and
`-2D` become `2D`; `_template` and `-1D` become `template`; every other
captured suffix - `_2d`, `_complement` and `-complement` - becomes
`complement`; a missing suffix is inferred from a `.2D.`, `.template.` or
`.complement.` filename substring, and the program aborts when the filename
is empty or carries no such marker. -/
theorem normalizePoreRead_normalization (filename : String) :
    normalizePoreRead "_twodirections" filename = some "2D" ∧
    normalizePoreRead "-2D" filename = some "2D" ∧
    normalizePoreRead "_2d" filename = some "complement" ∧
    normalizePoreRead "_template" filename = some "template" ∧
    normalizePoreRead "-1D" filename = some "template" ∧
    normalizePoreRead "_complement" filename = some "complement" ∧
    normalizePoreRead "-complement" filename = some "complement" ∧
    (filename ≠ "" →
      ((strFind ".2D.".data filename.data).isSome = true →
        normalizePoreRead "" filename = some "2D") ∧
      ((strFind ".2D.".data filename.data).isSome = false →
        (strFind ".template.".data filename.data).isSome = true →
        normalizePoreRead "" filename = some "template") ∧
      ((strFind ".2D.".data filename.data).isSome = false →
        (strFind ".template.".data filename.data).isSome = false →
        (strFind ".complement.".data filename.data).isSome = true →
        normalizePoreRead "" filename = some "complement") ∧
      ((strFind ".2D.".data filename.data).isSome = false →
        (strFind ".template.".data filename.data).isSome = false →
        (strFind ".complement.".data filename.data).isSome = false →
        normalizePoreRead "" filename = none)) ∧
    normalizePoreRead "" "" = none := by
  refine ⟨by simp [normalizePoreRead], by simp [normalizePoreRead],
    by simp [normalizePoreRead], by simp [normalizePoreRead],
    by simp [normalizePoreRead], by simp [normalizePoreRead],
    by simp [normalizePoreRead], ?_, by simp [normalizePoreRead]⟩
  intro hf
  exact ⟨fun h2d => by simp [normalizePoreRead, hf, h2d],
    fun h2d ht => by simp [normalizePoreRead, hf, h2d, ht],
    fun h2d ht hc => by simp [normalizePoreRead, hf, h2d, ht, hc],
    fun h2d ht hc => by simp [normalizePoreRead, hf, h2d, ht, hc]⟩

/-- **C9** (code bug). For paired files the second `if` of
`setUnchangingSpotValues` carries the `else`, so its `[1, 1]` overwrites
the `[0, 1]` stored for `read1IsTechnical`: configuring only
`read1IsTechnical` still yields READ_TYPE `[1, 1]` (both Biological), not
`[0, 1]`; the default and `read2IsTechnical` rows are as claimed. -/
theorem pairedFilesReadTypes_values (prev : List Nat) :
    pairedFilesReadTypes false false prev = [1, 1] ∧
    pairedFilesReadTypes false true prev = [1, 0] ∧
    pairedFilesReadTypes true false prev = [1, 1] ∧
    ¬ pairedFilesReadTypes true false prev = [0, 1] :=
  ⟨rfl, rfl, rfl, by simp [pairedFilesReadTypes]⟩

/-- **C10** (code bug). The captured `poreFile` group always begins with the
`:` separator, so its first path chunk is `:fail`/`:pass`, never the bare
`fail`/`pass` the comparison tests: the filter flag is left unchanged even
for a `fail/` path, while the spot group is still cut at the `_ch<channel>_`
marker of the final component. -/
theorem nanoporePoreFile_fail_not_filtered :
    nanoporeProcessPoreFile 0 "" "100" ":fail/x_ch100_file1_strand.fast5" =
      ⟨0, "x_ch100_file1_strand.fast5", "x"⟩ ∧
    ¬ (nanoporeProcessPoreFile 0 "" "100" ":fail/x_ch100_file1_strand.fast5").filterRead = 1 ∧
    (nanoporeProcessPoreFile 1 "" "7" ":pass/y_ch7_file3_strand.fast5").filterRead = 1 :=
  ⟨by decide, by decide, by decide⟩

/-- **C2** (counterexample). Two valid deflines with the same name and the
same read number `1` break pairing symmetry: both orders return 2, so
`isPairedDeflines(a,b,False) = 1` is false while
`isPairedDeflines(b,a,False) = 2` is true. -/
theorem isPairedDeflines_symmetry_fails :
    isPairedDeflines ⟨"r1", "1", "", "", "@r1/1"⟩ ⟨"r1", "1", "", "", "@r1/1"⟩ false =
      PairAnswer.second ∧
    ¬ (isPairedDeflines ⟨"r1", "1", "", "", "@r1/1"⟩ ⟨"r1", "1", "", "", "@r1/1"⟩ false =
         PairAnswer.first ↔
       isPairedDeflines ⟨"r1", "1", "", "", "@r1/1"⟩ ⟨"r1", "1", "", "", "@r1/1"⟩ false =
         PairAnswer.second) :=
  ⟨by decide, by decide⟩

/-- **C2** (amended). Pairing symmetry
`isPairedDeflines(a,b,False) = 1 ↔ isPairedDeflines(b,a,False) = 2` holds
whenever the tie-break cases cannot fire: read numbers differ when both are
present, the two deflines are not both Nanopore templates, when both ABSOLiD
tag types are present exactly one of them is F3, and the raw defline strings
differ.  (In each excluded tie case both orders return the same value.) -/
theorem isPairedDeflines_pairing_symmetry (d1 d2 : DeflineRec)
    (hrn : d1.readNum ≠ "" → d2.readNum ≠ "" → d1.readNum ≠ d2.readNum)
    (htpl : ¬ (d1.poreRead = "template" ∧ d2.poreRead = "template"))
    (htag : d1.tagType ≠ "" → d2.tagType ≠ "" → (d1.tagType = "F3" ↔ d2.tagType ≠ "F3"))
    (hstr : d1.deflineString ≠ d2.deflineString) :
    (isPairedDeflines d1 d2 false = PairAnswer.first ↔
      isPairedDeflines d2 d1 false = PairAnswer.second) := by
  by_cases hname : d1.name ≠ "" ∧ d2.name ≠ "" ∧ d1.name = d2.name
  case neg =>
    have hno12 : ¬ ((false : Bool) = false ∧ d1.name ≠ "" ∧ d2.name ≠ "" ∧
        d1.name = d2.name) := fun h => hname ⟨h.2.1, h.2.2.1, h.2.2.2⟩
    have hno21 : ¬ ((false : Bool) = false ∧ d2.name ≠ "" ∧ d1.name ≠ "" ∧
        d2.name = d1.name) := fun h => hname ⟨h.2.2.1, h.2.1, h.2.2.2.symm⟩
    have e12 : isPairedDeflines d1 d2 false = PairAnswer.no := by
      unfold isPairedDeflines
      rw [if_neg (fun h => by simp at h), if_neg hno12]
    have e21 : isPairedDeflines d2 d1 false = PairAnswer.no := by
      unfold isPairedDeflines
      rw [if_neg (fun h => by simp at h), if_neg hno21]
    rw [e12, e21]
    simp
  case pos =>
    obtain ⟨hn1, hn2, h12⟩ := hname
    have r12 : isPairedDeflines d1 d2 false =
        (if d1.readNum ≠ "" ∧ d2.readNum ≠ "" then
          if pyStrLt d1.readNum d2.readNum then PairAnswer.first else PairAnswer.second
        else if d1.poreRead ≠ "" ∧ d1.poreRead = "template" then PairAnswer.first
        else if d2.poreRead ≠ "" ∧ d2.poreRead = "template" then PairAnswer.second
        else if d1.poreRead ≠ "" ∨ d2.poreRead ≠ "" then PairAnswer.no
        else if d1.tagType ≠ "" ∧ d2.tagType ≠ "" then
          if d1.tagType = "F3" ∧ d2.tagType ≠ "F3" then PairAnswer.first
          else if d2.tagType = "F3" ∧ d1.tagType ≠ "F3" then PairAnswer.second
          else PairAnswer.first
        else if pyStrLt d1.deflineString d2.deflineString then PairAnswer.first
        else if pyStrLt d2.deflineString d1.deflineString then PairAnswer.second
        else PairAnswer.first) := by
      unfold isPairedDeflines
      have hyes : ((false : Bool) = false ∧ d1.name ≠ "" ∧ d2.name ≠ "" ∧
          d1.name = d2.name) := ⟨rfl, hn1, hn2, h12⟩
      rw [if_neg (fun h => by simp at h), if_pos hyes]
    have r21 : isPairedDeflines d2 d1 false =
        (if d2.readNum ≠ "" ∧ d1.readNum ≠ "" then
          if pyStrLt d2.readNum d1.readNum then PairAnswer.first else PairAnswer.second
        else if d2.poreRead ≠ "" ∧ d2.poreRead = "template" then PairAnswer.first
        else if d1.poreRead ≠ "" ∧ d1.poreRead = "template" then PairAnswer.second
        else if d2.poreRead ≠ "" ∨ d1.poreRead ≠ "" then PairAnswer.no
        else if d2.tagType ≠ "" ∧ d1.tagType ≠ "" then
          if d2.tagType = "F3" ∧ d1.tagType ≠ "F3" then PairAnswer.first
          else if d1.tagType = "F3" ∧ d2.tagType ≠ "F3" then PairAnswer.second
          else PairAnswer.first
        else if pyStrLt d2.deflineString d1.deflineString then PairAnswer.first
        else if pyStrLt d1.deflineString d2.deflineString then PairAnswer.second
        else PairAnswer.first) := by
      unfold isPairedDeflines
      have hyes : ((false : Bool) = false ∧ d2.name ≠ "" ∧ d1.name ≠ "" ∧
          d2.name = d1.name) := ⟨rfl, hn2, hn1, h12.symm⟩
      rw [if_neg (fun h => by simp at h), if_pos hyes]
    rw [r12, r21]
    by_cases hrnb : d1.readNum ≠ "" ∧ d2.readNum ≠ ""
    · have hne := hrn hrnb.1 hrnb.2
      rcases pyStrLt_trichotomy d1.readNum d2.readNum with hlt | heq | hgt
      · have hrev : pyStrLt d2.readNum d1.readNum = false := pyStrLt_asymm hlt
        simp [hrnb.1, hrnb.2, hlt, hrev]
      · exact absurd heq hne
      · have hrev : pyStrLt d1.readNum d2.readNum = false := pyStrLt_asymm hgt
        simp [hrnb.1, hrnb.2, hgt, hrev]
    · have hc21 : ¬ (d2.readNum ≠ "" ∧ d1.readNum ≠ "") := fun h => hrnb ⟨h.2, h.1⟩
      by_cases h1t : d1.poreRead = "template"
      · have h2t : ¬ d2.poreRead = "template" := fun h => htpl ⟨h1t, h⟩
        simp [hrnb, hc21, h1t, h2t]
      · by_cases h2t : d2.poreRead = "template"
        · simp [hrnb, hc21, h1t, h2t]
        · by_cases hpore : d1.poreRead ≠ "" ∨ d2.poreRead ≠ ""
          · have hpore' : d2.poreRead ≠ "" ∨ d1.poreRead ≠ "" := Or.symm hpore
            simp [hrnb, hc21, h1t, h2t, hpore, hpore']
          · have hp1 : d1.poreRead = "" := by
              by_contra hp
              exact hpore (Or.inl hp)
            have hp2 : d2.poreRead = "" := by
              by_contra hp
              exact hpore (Or.inr hp)
            by_cases htagb : d1.tagType ≠ "" ∧ d2.tagType ≠ ""
            · have hiff := htag htagb.1 htagb.2
              by_cases hf1 : d1.tagType = "F3"
              · have hf2 : d2.tagType ≠ "F3" := hiff.mp hf1
                simp [hrnb, hc21, hp1, hp2, hf1, hf2, htagb.1, htagb.2]
              · have hf2 : d2.tagType = "F3" := by
                  by_contra hf2
                  exact hf1 (hiff.mpr hf2)
                simp [hrnb, hc21, hp1, hp2, hf1, hf2, htagb.1, htagb.2]
            · have htagb' : ¬ (d2.tagType ≠ "" ∧ d1.tagType ≠ "") :=
                fun h => htagb ⟨h.2, h.1⟩
              rcases pyStrLt_trichotomy d1.deflineString d2.deflineString with
                hlt | heq | hgt
              · have hrev : pyStrLt d2.deflineString d1.deflineString = false :=
                  pyStrLt_asymm hlt
                simp [hrnb, hc21, hp1, hp2, htagb, htagb', hlt, hrev]
              · exact absurd heq hstr
              · have hrev : pyStrLt d1.deflineString d2.deflineString = false :=
                  pyStrLt_asymm hgt
                simp [hrnb, hc21, hp1, hp2, htagb, htagb', hgt, hrev]

/-- **C2** witness: mates with read numbers 1 and 2 pair symmetrically. -/
theorem isPairedDeflines_pairing_symmetry_witness :
    (isPairedDeflines ⟨"s7", "1", "", "", "@s7/1"⟩ ⟨"s7", "2", "", "", "@s7/2"⟩ false =
       PairAnswer.first ↔
     isPairedDeflines ⟨"s7", "2", "", "", "@s7/2"⟩ ⟨"s7", "1", "", "", "@s7/1"⟩ false =
       PairAnswer.second) :=
  isPairedDeflines_pairing_symmetry ⟨"s7", "1", "", "", "@s7/1"⟩ ⟨"s7", "2", "", "", "@s7/2"⟩
    (by decide) (by decide) (by decide) (by decide)

lemma findValidDefline_fatal_iff_aux (parse : String → Bool) :
    ∀ (lines : List String) (c : Nat), c < 1000 →
      (findValidDefline parse c lines = .fatal ↔
        (1000 - c ≤ lines.length ∧
          ∀ l ∈ lines.take (1000 - c), pyStrip l ≠ "" ∧ parse (pyStrip l) = false)) := by
  intro lines
  induction lines with
  | nil =>
    intro c hc
    constructor
    · intro h
      simp [findValidDefline, parseDeflineValid] at h
    · rintro ⟨hlen, -⟩
      simp only [List.length_nil, Nat.le_zero] at hlen
      omega
  | cons l rest ih =>
    intro c hc
    obtain ⟨k, hk⟩ : ∃ k, 1000 - c = k + 1 := ⟨1000 - c - 1, by omega⟩
    by_cases hval : parseDeflineValid parse (pyStrip l) = true
    · have e : findValidDefline parse c (l :: rest) = .found (pyStrip l) := by
        simp only [findValidDefline, hval, if_true]
      rw [e, hk, List.take_succ_cons]
      constructor
      · intro h
        simp at h
      · rintro ⟨hlen, hall⟩
        obtain ⟨hne, hpf⟩ := hall l (List.mem_cons_self l _)
        unfold parseDeflineValid at hval
        rw [if_neg hne, hpf] at hval
        simp at hval
    · have hne : pyStrip l ≠ "" := by
        intro h0
        apply hval
        unfold parseDeflineValid
        rw [h0]
        simp
      have hpf : parse (pyStrip l) = false := by
        unfold parseDeflineValid at hval
        rw [if_neg hne] at hval
        simpa using hval
      have hlne : l ≠ "" := by
        intro h0
        apply hne
        rw [h0]
        rfl
      by_cases hend : c + 1 = 1000
      · have e : findValidDefline parse c (l :: rest) = .fatal := by
          simp only [findValidDefline]
          rw [if_neg hval, if_pos (Or.inl hend)]
        have hk0 : k = 0 := by omega
        subst hk0
        rw [e, hk, List.take_succ_cons]
        constructor
        · intro _
          refine ⟨?_, ?_⟩
          · simp only [List.length_cons]
            omega
          · intro l' hl'
            simp only [List.take_zero, List.mem_cons, List.not_mem_nil, or_false] at hl'
            subst hl'
            exact ⟨hne, hpf⟩
        · intro _
          rfl
      · have hc' : c + 1 < 1000 := by omega
        have e : findValidDefline parse c (l :: rest) = findValidDefline parse (c + 1) rest := by
          simp only [findValidDefline]
          rw [if_neg hval, if_neg ?hor]
          case hor =>
            rintro (h | h)
            · exact hend h
            · exact hlne h
        have hkk : 1000 - (c + 1) = k := by omega
        rw [e, ih (c + 1) hc', hkk, hk, List.take_succ_cons]
        constructor
        · rintro ⟨hlen, hall⟩
          refine ⟨?_, ?_⟩
          · simp only [List.length_cons]
            omega
          · intro l' hl'
            rcases List.mem_cons.mp hl' with h | h
            · subst h
              exact ⟨hne, hpf⟩
            · exact hall l' h
        · rintro ⟨hlen, hall⟩
          refine ⟨?_, fun l' hl' => hall l' (List.mem_cons_of_mem _ hl')⟩
          simp only [List.length_cons] at hlen
          omega

/-- **C8** (counterexample). An unparseable line followed by end of file
does not terminate the program: at EOF `readline` returns the empty string,
which reparses as a (vacuously valid) empty defline, so the resync loop
accepts it instead of exiting fatally "before EOF". -/
theorem findValidDefline_eof_not_fatal :
    findValidDefline (fun _ => false) 0 ["%%%"] = ResyncResult.found "" ∧
    ¬ findValidDefline (fun _ => false) 0 ["%%%"] = ResyncResult.fatal :=
  ⟨by decide, by decide⟩

/-- **C8** (amended). The resync loop consumes and discards lines, reparsing
each as a defline, and the first valid defline - including the empty one
produced by a blank line or EOF - restarts the record cycle; the program
terminates fatally if and only if the stream holds at least 1000 more lines
and each of the next 1000 lines is non-blank and fails to parse. -/
theorem findValidDefline_fatal_iff (parse : String → Bool) (lines : List String) :
    (findValidDefline parse 0 lines = ResyncResult.fatal ↔
      (1000 ≤ lines.length ∧
        ∀ l ∈ lines.take 1000, pyStrip l ≠ "" ∧ parse (pyStrip l) = false)) := by
  have h := findValidDefline_fatal_iff_aux parse lines 0 (by norm_num)
  simpa using h

end FastqLoad
